import Mathlib

/-!
Shallow embedding of the MCP client in `src/client.py` (class `MCPClient`)
together with the pieces of the Python standard library its behaviour
depends on (the `re.sub` call that strips reasoning markup, `str.strip`,
`str.lower`, and the `AsyncExitStack` teardown).  External collaborators
(the chat-completion API, the MCP session, `json.loads`) are modelled as
oracles supplied in an environment record; the client code itself is
translated statement by statement.
-/

/-- The opening reasoning marker, the literal `<think>` of the regex at
client.py:145. -/
def openTag : List Char := ['<', 't', 'h', 'i', 'n', 'k', '>']

/-- The closing reasoning marker, the literal `</think>` of the regex at
client.py:145. -/
def closeTag : List Char := ['<', '/', 't', 'h', 'i', 'n', 'k', '>']

/-- Scan for the first occurrence of `closeTag` and drop everything up to and
including it; `none` when no closing marker occurs.  This is the non-greedy
`.*?</think>` part of the pattern (with `re.DOTALL`, `.` matches newlines,
so no character is special). -/
def dropToClose : List Char → Option (List Char)
  | [] => none
  | c :: rest =>
    if closeTag.isPrefixOf (c :: rest) then some (List.drop closeTag.length (c :: rest))
    else dropToClose rest

/-- One fuel-indexed pass of `re.sub(r"<think>.*?</think>", "", text, flags=re.DOTALL)`:
the scanner tries each position left to right; where `<think>` begins and a
later `</think>` exists, the whole span through the first `</think>` is
deleted and scanning resumes after it; otherwise the character is kept.
Each step consumes at least one character, so fuel equal to the length of
the list is sufficient (the fuel-exhausted arm is then unreachable). -/
def removeThinkAux : Nat → List Char → List Char
  | 0, l => l
  | _ + 1, [] => []
  | fuel + 1, c :: rest =>
    if openTag.isPrefixOf (c :: rest) then
      match dropToClose (List.drop openTag.length (c :: rest)) with
      | some rest2 => removeThinkAux fuel rest2
      | none => c :: removeThinkAux fuel rest
    else c :: removeThinkAux fuel rest

/-- The sanitation pass on character lists. -/
def removeThink (l : List Char) : List Char := removeThinkAux l.length l

/-- `re.sub(r"<think>.*?</think>", "", text, flags=re.DOTALL)` from
client.py:144-149, as a function on strings. -/
def sanitize (s : String) : String := String.mk (removeThink s.data)

/-- `hasSub pat l` holds when `pat` occurs as a contiguous run inside `l`;
used to state "the text contains no reasoning marker". -/
def hasSub (pat : List Char) : List Char → Bool
  | [] => pat.isPrefixOf []
  | c :: rest => pat.isPrefixOf (c :: rest) || hasSub pat rest

/-- A JSON value, the document type for tool input schemas and for the
result of `json.loads` on the model's argument text. -/
inductive JsonVal where
  | null
  | bool (b : Bool)
  | num (n : Int)
  | str (s : String)
  | arr (elems : List JsonVal)
  | obj (fields : List (String × JsonVal))

/-- One tool descriptor as returned by `session.list_tools()`:
`tool.name`, `tool.description`, `tool.inputSchema` (client.py:97-99). -/
structure ToolDescriptor where
  name : String
  description : String
  inputSchema : JsonVal

/-- The inner `"function"` object of one entry of `available_tools`
(client.py:96-100). -/
structure FunctionDef where
  name : String
  description : String
  input_schema : JsonVal

/-- One entry of the `available_tools` list built at client.py:93-103. -/
structure FunctionSpecEntry where
  type : String
  function : FunctionDef

/-- The list comprehension at client.py:93-103: one function entry per tool,
fields copied across. -/
def buildFunctionSpecs (tools : List ToolDescriptor) : List FunctionSpecEntry :=
  tools.map fun tool =>
    { type := "function"
      function :=
        { name := tool.name
          description := tool.description
          input_schema := tool.inputSchema } }

/-- `tool_call.function`: the function name and the raw JSON argument text
emitted by the model. -/
structure FunctionCallPart where
  name : String
  arguments : String

/-- One proposed tool call in the model's message (`tool_call.id`,
`tool_call.function`). -/
structure ToolCallMsg where
  id : String
  function : FunctionCallPart

/-- The model's message: optional text content plus the proposed tool calls
(`tool_calls` is the empty list when the model proposes none). -/
structure ModelMessage where
  content : Option String
  tool_calls : List ToolCallMsg

/-- `response.choices[0]`: finish reason plus message (client.py:113). -/
structure ModelChoice where
  finish_reason : String
  message : ModelMessage

/-- One item of a tool result's content list (`.text` at client.py:124,132). -/
structure ContentItem where
  text : String

/-- The result of `session.call_tool` (client.py:122). -/
structure CallToolResult where
  content : List ContentItem

/-- A message of the conversation list built by `process_query`: the user
dict of client.py:89-91, the `model_dump()` of the assistant message
appended at client.py:128, and the tool-role dict of client.py:129-135. -/
inductive ChatMessage where
  | user (content : String)
  | assistant (message : ModelMessage)
  | tool (content : String) (tool_call_id : String)

/-- One request sent to `self.client.chat.completions.create`: the message
list, and the function specs when the `tools` keyword is passed
(client.py:106-110 passes them, client.py:138-141 does not). -/
structure ModelRequest where
  messages : List ChatMessage
  tools : Option (List FunctionSpecEntry)

/-- The per-query exceptions `process_query` can raise: indexing an empty
list (`tool_calls[0]`, `content[0]`), a `json.loads` failure on the
argument text, a fault raised by `session.call_tool`, and `re.sub` applied
to a `None` content. -/
inductive QueryError where
  | indexError
  | jsonDecodeError
  | toolExecutionError
  | typeError

/-- The environment of one `process_query` run: the descriptors returned by
`session.list_tools()`, the model's first and second responses, and the
`session.call_tool` and `json.loads` oracles. -/
structure QueryEnv where
  tools : List ToolDescriptor
  model1 : ModelChoice
  model2 : ModelChoice
  callTool : String → JsonVal → Except QueryError CallToolResult
  jsonLoads : String → Option JsonVal

/-- What one `process_query` run did: every model request it issued in
order, every tool invocation it executed, and its outcome (`Except.error`
models an exception escaping `process_query`; the payload of `Except.ok` is
optional because the non-tool branch returns `modelResult.message.content`,
which may be `None`). -/
structure QueryRun where
  requests : List ModelRequest
  toolCalls : List (String × JsonVal)
  result : Except QueryError (Option String)

/-- `MCPClient.process_query` (client.py:83-154), translated line by line.
The first model request carries the function specs; on finish reason
`"tool_calls"` the first proposed call is extracted, its arguments parsed,
the tool invoked, the assistant message and a correlated tool-role message
appended, and a second request without function specs issued, whose content
is passed through the `re.sub` filter; on any other finish reason the
content is returned as is. -/
def process_query (env : QueryEnv) (query : String) : QueryRun :=
  let messages : List ChatMessage := [ChatMessage.user query]
  let available_tools := buildFunctionSpecs env.tools
  let req1 : ModelRequest := { messages := messages, tools := some available_tools }
  let modelResult := env.model1
  if modelResult.finish_reason = "tool_calls" then
    match modelResult.message.tool_calls with
    | [] =>
      { requests := [req1], toolCalls := [], result := Except.error QueryError.indexError }
    | tool_call :: _ =>
      let tool_name := tool_call.function.name
      match env.jsonLoads tool_call.function.arguments with
      | none =>
        { requests := [req1], toolCalls := [],
          result := Except.error QueryError.jsonDecodeError }
      | some tool_args =>
        match env.callTool tool_name tool_args with
        | Except.error e =>
          { requests := [req1], toolCalls := [(tool_name, tool_args)],
            result := Except.error e }
        | Except.ok toolResult =>
          match toolResult.content with
          | [] =>
            { requests := [req1], toolCalls := [(tool_name, tool_args)],
              result := Except.error QueryError.indexError }
          | item :: _ =>
            let messages2 := messages ++
              [ChatMessage.assistant modelResult.message,
               ChatMessage.tool item.text tool_call.id]
            let req2 : ModelRequest := { messages := messages2, tools := none }
            match env.model2.message.content with
            | none =>
              { requests := [req1, req2], toolCalls := [(tool_name, tool_args)],
                result := Except.error QueryError.typeError }
            | some c =>
              { requests := [req1, req2], toolCalls := [(tool_name, tool_args)],
                result := Except.ok (some (sanitize c)) }
  else
    { requests := [req1], toolCalls := [], result := Except.ok modelResult.message.content }

/-- `str.endswith(pat)` on the script path (client.py:55-56). -/
def pyEndsWith (s pat : String) : Bool := List.isSuffixOf pat.data s.data

/-- The error raised at client.py:58 for a script path that is neither a
`.py` nor a `.js` file; the spec's `UnsupportedServerTypeError`. -/
inductive ConnectError where
  | unsupportedServerType

/-- The session-relevant state of an `MCPClient` instance: `self.session`,
holding the connected server script when established. -/
structure ClientState where
  session : Option String

/-- What one `connect_to_server` run did: the processes it spawned (spawn
command and script path), the resulting client state, and whether it raised. -/
structure ConnectRun where
  spawned : List (String × String)
  state : ClientState
  result : Except ConnectError Unit

/-- `MCPClient.connect_to_server` (client.py:49-81) up to session
establishment: check the extension, raise before anything is spawned when it
is neither `.py` nor `.js`, otherwise spawn the server with the matching
command and record the session. -/
def connect_to_server (st : ClientState) (server_script_path : String) : ConnectRun :=
  let is_python := pyEndsWith server_script_path ".py"
  let is_js := pyEndsWith server_script_path ".js"
  if !(is_python || is_js) then
    { spawned := [], state := st, result := Except.error ConnectError.unsupportedServerType }
  else
    let command := if is_python then "python" else "node"
    { spawned := [(command, server_script_path)],
      state := { session := some server_script_path },
      result := Except.ok () }

/-- `str.strip()` on character lists: drop whitespace from both ends. -/
def stripChars (l : List Char) : List Char :=
  ((l.dropWhile Char.isWhitespace).reverse.dropWhile Char.isWhitespace).reverse

/-- `query = input(...).strip()` at client.py:165. -/
def pyStrip (s : String) : String := String.mk (stripChars s.data)

/-- `query.lower()` at client.py:168. -/
def pyLower (s : String) : String := String.mk (s.data.map Char.toLower)

/-- One line the chat loop printed: a model answer (client.py:175) or the
warning printed by the `except` arm (client.py:177). -/
inductive LoopEvent where
  | answer (response : Option String)
  | warning (e : QueryError)

/-- `MCPClient.chat_loop` (client.py:156-177) over a finite list of input
lines: each line is stripped, compared case-insensitively against the quit
sentinel, otherwise dispatched to `process_query` (abstracted as `proc`);
an exception from the dispatch is caught by the `except` arm, printed as a
warning, and the loop continues with the next line. -/
def chat_loop (proc : String → Except QueryError (Option String)) :
    List String → List LoopEvent
  | [] => []
  | line :: rest =>
    let query := pyStrip line
    if pyLower query = "quit" then []
    else
      match proc query with
      | Except.ok response => LoopEvent.answer response :: chat_loop proc rest
      | Except.error e => LoopEvent.warning e :: chat_loop proc rest

/-- The `self.exit_stack` of the client: the contexts entered so far
(the stdio transport and the client session, innermost last). -/
structure AsyncExitStack where
  resources : List String

/-- What one `cleanup` call did: the stack afterwards and the resources it
released, innermost first. -/
structure CleanupRun where
  stack : AsyncExitStack
  released : List String

/-- `AsyncExitStack.aclose`: unwind every entered context in reverse order
of entry and leave the stack empty, so a second call finds an empty stack,
releases nothing and raises nothing. -/
def aclose (st : AsyncExitStack) : CleanupRun :=
  { stack := { resources := [] }, released := st.resources.reverse }

/-- `MCPClient.cleanup` (client.py:179-181): `await self.exit_stack.aclose()`. -/
def cleanup (st : AsyncExitStack) : CleanupRun := aclose st

/-- A concrete environment whose first model response proposes two tool
calls; used to instantiate the dispatch-loop theorems. -/
def envTool : QueryEnv :=
  { tools := [{ name := "query_weather", description := "weather lookup",
                inputSchema := JsonVal.obj [("city", JsonVal.str "string")] }]
    model1 :=
      { finish_reason := "tool_calls"
        message :=
          { content := none
            tool_calls :=
              [ { id := "call_1",
                  function := { name := "query_weather", arguments := "city Paris" } },
                { id := "call_2",
                  function := { name := "query_weather", arguments := "city Tokyo" } } ] } }
    model2 :=
      { finish_reason := "stop"
        message := { content := some "<think>hmm</think>Sunny in Paris", tool_calls := [] } }
    callTool := fun _ _ => Except.ok { content := [{ text := "Paris is sunny" }] }
    jsonLoads := fun _ => some (JsonVal.obj [("city", JsonVal.str "Paris")]) }

/-- A concrete environment whose first model response is a plain answer
containing reasoning markup. -/
def envPlain : QueryEnv :=
  { tools := []
    model1 :=
      { finish_reason := "stop"
        message := { content := some "<think>a</think>b", tool_calls := [] } }
    model2 := { finish_reason := "stop", message := { content := none, tool_calls := [] } }
    callTool := fun _ _ => Except.error QueryError.toolExecutionError
    jsonLoads := fun _ => none }

/-- A concrete environment whose tool returns a result with an empty
content list. -/
def envEmptyContent : QueryEnv :=
  { tools := []
    model1 :=
      { finish_reason := "tool_calls"
        message :=
          { content := none
            tool_calls :=
              [ { id := "call_9",
                  function := { name := "query_weather", arguments := "city Oslo" } } ] } }
    model2 := { finish_reason := "stop", message := { content := some "x", tool_calls := [] } }
    callTool := fun _ _ => Except.ok { content := [] }
    jsonLoads := fun _ => some JsonVal.null }

/-- A dispatcher that always raises, for the chat-loop theorem instance. -/
def procFail : String → Except QueryError (Option String) :=
  fun _ => Except.error QueryError.toolExecutionError

/-- Auxiliary: where no opening marker occurs, the sanitation pass copies
the text unchanged, at every fuel. -/
theorem removeThinkAux_no_open (fuel : Nat) (l : List Char)
    (h : hasSub openTag l = false) : removeThinkAux fuel l = l := by
  induction fuel generalizing l with
  | zero => rfl
  | succ fuel ih =>
    cases l with
    | nil => rfl
    | cons c rest =>
      simp only [hasSub, Bool.or_eq_false_iff] at h
      simp only [removeThinkAux, h.1, Bool.false_eq_true, if_false, ih rest h.2]

/-- Auxiliary: where no opening marker occurs, `removeThink` is the
identity. -/
theorem removeThink_no_open (l : List Char) (h : hasSub openTag l = false) :
    removeThink l = l :=
  removeThinkAux_no_open l.length l h

/-- C3: for every list of tool descriptors, the function-spec translation
produces one entry per descriptor (equal lengths), preserves order, and at
every index copies the descriptor's name, description and input schema
verbatim into the entry's function object. -/
theorem C3_buildFunctionSpecs_pointwise (tools : List ToolDescriptor) :
    (buildFunctionSpecs tools).length = tools.length ∧
    ∀ i : Nat,
      (buildFunctionSpecs tools)[i]? =
        (tools[i]?).map fun t =>
          { type := "function"
            function :=
              { name := t.name
                description := t.description
                input_schema := t.inputSchema } } := by
  constructor
  · simp [buildFunctionSpecs]
  · intro i
    simp [buildFunctionSpecs, List.getElem?_map]

/-- C5: the sanitizer is the identity on every text containing neither the
opening nor the closing reasoning marker. -/
theorem C5_sanitize_id (s : String)
    (h1 : hasSub openTag s.data = false)
    (h2 : hasSub closeTag s.data = false) :
    sanitize s = s := by
  cases s with
  | mk data => exact congrArg String.mk (removeThink_no_open data h1)

/-- Witness for C5 at the concrete input `"hello world"`. -/
theorem C5_sanitize_id_witness :
    hasSub openTag "hello world".data = false ∧
    hasSub closeTag "hello world".data = false ∧
    sanitize "hello world" = "hello world" :=
  ⟨by decide, by decide, C5_sanitize_id "hello world" (by decide) (by decide)⟩

/-- C4 fails on the code: deleting a span can splice the surrounding text
into a fresh marker pair, which only a further pass would remove; at this
input one pass yields a text that a second pass still changes. -/
theorem C4_counterexample :
    sanitize (sanitize "<thi<think>x</think>nk>hello</think>") ≠
      sanitize "<thi<think>x</think>nk>hello</think>" := by
  decide

/-- C4 (amended): the sanitizer is idempotent on every text whose sanitized
form no longer contains the opening reasoning marker; span removal can
splice surrounding text into a new marker pair, and exactly those inputs
are the exceptions. -/
theorem C4_sanitize_idempotent_cond (s : String)
    (h : hasSub openTag (sanitize s).data = false) :
    sanitize (sanitize s) = sanitize s :=
  congrArg String.mk (removeThink_no_open (removeThink s.data) h)

/-- Witness for the amended C4 at the concrete input `"a<think>b</think>c"`. -/
theorem C4_sanitize_idempotent_cond_witness :
    hasSub openTag (sanitize "a<think>b</think>c").data = false ∧
    sanitize (sanitize "a<think>b</think>c") = sanitize "a<think>b</think>c" :=
  ⟨by decide, C4_sanitize_idempotent_cond "a<think>b</think>c" (by decide)⟩

/-- C6: on a script path ending in neither `.py` nor `.js`,
`connect_to_server` raises the unsupported-server-type error, spawns no
process, and leaves the session state unchanged. -/
theorem C6_bad_extension_no_spawn (st : ClientState) (path : String)
    (h1 : pyEndsWith path ".py" = false)
    (h2 : pyEndsWith path ".js" = false) :
    (connect_to_server st path).spawned = [] ∧
    (connect_to_server st path).state = st ∧
    (connect_to_server st path).result =
      Except.error ConnectError.unsupportedServerType := by
  simp [connect_to_server, h1, h2]

/-- Witness for C6 at the concrete path `"server.txt"`. -/
theorem C6_bad_extension_no_spawn_witness :
    pyEndsWith "server.txt" ".py" = false ∧
    pyEndsWith "server.txt" ".js" = false ∧
    (connect_to_server { session := none } "server.txt").spawned = [] ∧
    (connect_to_server { session := none } "server.txt").state =
      { session := none } ∧
    (connect_to_server { session := none } "server.txt").result =
      Except.error ConnectError.unsupportedServerType := by
  refine ⟨by decide, by decide, ?_⟩
  have h := C6_bad_extension_no_spawn { session := none } "server.txt"
    (by decide) (by decide)
  exact ⟨h.1, h.2.1, h.2.2⟩

/-- C7: when dispatching a (non-quit) query raises a per-query error, the
chat loop emits exactly the warning for that error and then continues with
the remaining input lines exactly as it would process them afresh: the
session does not terminate and the next query is accepted normally. -/
theorem C7_loop_survives_error (proc : String → Except QueryError (Option String))
    (line : String) (rest : List String) (e : QueryError)
    (hq : pyLower (pyStrip line) ≠ "quit")
    (he : proc (pyStrip line) = Except.error e) :
    chat_loop proc (line :: rest) = LoopEvent.warning e :: chat_loop proc rest := by
  simp [chat_loop, hq, he]

/-- Witness for C7: a dispatcher that always raises a tool-execution error,
run on the line `"weather"` followed by one further line. -/
theorem C7_loop_survives_error_witness :
    pyLower (pyStrip "weather") ≠ "quit" ∧
    procFail (pyStrip "weather") = Except.error QueryError.toolExecutionError ∧
    chat_loop procFail ["weather", "more"] =
      LoopEvent.warning QueryError.toolExecutionError :: chat_loop procFail ["more"] :=
  ⟨by decide, rfl,
    C7_loop_survives_error procFail "weather" ["more"]
      QueryError.toolExecutionError (by decide) rfl⟩

/-- C9: closing the session is idempotent: the first `cleanup` releases
every held resource (in reverse order of acquisition, whatever state the
stack is in) and empties the stack, and a second `cleanup` on the resulting
state releases nothing and leaves the empty stack unchanged; as a total
function it raises no error. -/
theorem C9_cleanup_idempotent (st : AsyncExitStack) :
    (cleanup st).released = st.resources.reverse ∧
    (cleanup st).stack = { resources := [] } ∧
    cleanup (cleanup st).stack = { stack := { resources := [] }, released := [] } := by
  simp [cleanup, aclose]

/-- C1: when the first model response has finish reason `"tool_calls"` and
the run completes (a call is proposed, its arguments parse, the tool
returns content, the second response has content), `process_query` executes
exactly one tool call and exactly two model calls, the conversation sent
with the final request is, in order, the user message, the assistant
tool-call message, and a tool-role message whose correlation id is the id
of the extracted call, and the final request carries no function specs. -/
theorem C1_tool_dispatch (env : QueryEnv) (q : String)
    (tc : ToolCallMsg) (tcs : List ToolCallMsg) (args : JsonVal)
    (tr : CallToolResult) (item : ContentItem) (items : List ContentItem) (c : String)
    (h1 : env.model1.finish_reason = "tool_calls")
    (h2 : env.model1.message.tool_calls = tc :: tcs)
    (h3 : env.jsonLoads tc.function.arguments = some args)
    (h4 : env.callTool tc.function.name args = Except.ok tr)
    (h5 : tr.content = item :: items)
    (h6 : env.model2.message.content = some c) :
    (process_query env q).toolCalls.length = 1 ∧
    (process_query env q).requests.length = 2 ∧
    (process_query env q).requests =
      [{ messages := [ChatMessage.user q],
         tools := some (buildFunctionSpecs env.tools) },
       { messages := [ChatMessage.user q,
                      ChatMessage.assistant env.model1.message,
                      ChatMessage.tool item.text tc.id],
         tools := none }] := by
  simp [process_query, h1, h2, h3, h4, h5, h6]

/-- Witness for C1: the two-call environment `envTool`, whose hypotheses all
hold by computation. -/
theorem C1_tool_dispatch_witness :
    envTool.model1.finish_reason = "tool_calls" ∧
    (process_query envTool "weather in Paris").toolCalls.length = 1 ∧
    (process_query envTool "weather in Paris").requests.length = 2 := by
  have h := C1_tool_dispatch envTool "weather in Paris"
    ⟨"call_1", ⟨"query_weather", "city Paris"⟩⟩
    [⟨"call_2", ⟨"query_weather", "city Tokyo"⟩⟩]
    (JsonVal.obj [("city", JsonVal.str "Paris")])
    ⟨[⟨"Paris is sunny"⟩]⟩ ⟨"Paris is sunny"⟩ []
    "<think>hmm</think>Sunny in Paris"
    rfl rfl rfl rfl rfl rfl
  exact ⟨rfl, h.1, h.2.1⟩

/-- C2 fails on the code: in the plain-answer branch (client.py:154) the
content is returned verbatim, without the `re.sub` filter; at this input
the returned text still contains a marker span the sanitizer would remove. -/
theorem C2_counterexample :
    envPlain.model1.finish_reason = "stop" ∧
    (process_query envPlain "hi").result = Except.ok (some "<think>a</think>b") ∧
    sanitize "<think>a</think>b" ≠ "<think>a</think>b" :=
  ⟨rfl, rfl, by decide⟩

/-- C2 (amended): for every query whose first model response has a normal
(non-tool-call) finish reason, `process_query` makes exactly one model call
and returns that response's message content verbatim — the sanitizer is
applied only on the tool-call path. -/
theorem C2_plain_answer_verbatim (env : QueryEnv) (q : String)
    (h : env.model1.finish_reason ≠ "tool_calls") :
    (process_query env q).requests.length = 1 ∧
    (process_query env q).result = Except.ok env.model1.message.content := by
  simp [process_query, h]

/-- Witness for the amended C2 at the concrete environment `envPlain`. -/
theorem C2_plain_answer_verbatim_witness :
    envPlain.model1.finish_reason ≠ "tool_calls" ∧
    (process_query envPlain "hi").requests.length = 1 ∧
    (process_query envPlain "hi").result = Except.ok (some "<think>a</think>b") := by
  have h := C2_plain_answer_verbatim envPlain "hi" (by decide)
  exact ⟨by decide, h.1, h.2⟩

/-- C8: whenever the first model response proposes one or more tool calls
(and the first call's arguments parse), exactly the first proposed call is
executed — the executed-call list is that single call — and every tool-role
message appearing in any request's conversation carries the first call's
correlation id, so no additional proposed call is ever executed or recorded
as executed; this holds whatever `tcs`, the list of extra proposals, is. -/
theorem C8_first_call_only (env : QueryEnv) (q : String)
    (tc : ToolCallMsg) (tcs : List ToolCallMsg) (args : JsonVal)
    (h1 : env.model1.finish_reason = "tool_calls")
    (h2 : env.model1.message.tool_calls = tc :: tcs)
    (h3 : env.jsonLoads tc.function.arguments = some args) :
    (process_query env q).toolCalls = [(tc.function.name, args)] ∧
    ∀ r ∈ (process_query env q).requests, ∀ text cid,
      ChatMessage.tool text cid ∈ r.messages → cid = tc.id := by
  rcases hct : env.callTool tc.function.name args with e | tr
  · constructor
    · simp [process_query, h1, h2, h3, hct]
    · intro r hr text cid hm
      simp [process_query, h1, h2, h3, hct] at hr
      subst hr
      simp at hm
  · rcases hc : tr.content with _ | ⟨item, items⟩
    · constructor
      · simp [process_query, h1, h2, h3, hct, hc]
      · intro r hr text cid hm
        simp [process_query, h1, h2, h3, hct, hc] at hr
        subst hr
        simp at hm
    · rcases hm2 : env.model2.message.content with _ | c
      all_goals constructor
      · simp [process_query, h1, h2, h3, hct, hc, hm2]
      · intro r hr text cid hm
        simp [process_query, h1, h2, h3, hct, hc, hm2] at hr
        rcases hr with hr | hr <;> subst hr <;> simp at hm
        exact hm.2
      · simp [process_query, h1, h2, h3, hct, hc, hm2]
      · intro r hr text cid hm
        simp [process_query, h1, h2, h3, hct, hc, hm2] at hr
        rcases hr with hr | hr <;> subst hr <;> simp at hm
        exact hm.2

/-- Witness for C8: in `envTool` the model proposes two calls and only the
first is executed. -/
theorem C8_first_call_only_witness :
    envTool.model1.message.tool_calls =
      [⟨"call_1", ⟨"query_weather", "city Paris"⟩⟩,
       ⟨"call_2", ⟨"query_weather", "city Tokyo"⟩⟩] ∧
    (process_query envTool "weather in Paris").toolCalls =
      [("query_weather", JsonVal.obj [("city", JsonVal.str "Paris")])] := by
  have h := C8_first_call_only envTool "weather in Paris"
    ⟨"call_1", ⟨"query_weather", "city Paris"⟩⟩
    [⟨"call_2", ⟨"query_weather", "city Tokyo"⟩⟩]
    (JsonVal.obj [("city", JsonVal.str "Paris")])
    rfl rfl rfl
  exact ⟨rfl, h.1⟩

/-- C10: in the tool-call branch the code indexes `toolResult.content[0]`
unconditionally (client.py:124); when the tool result's content list is
empty, `process_query` fails with the indexing error after the single first
model call, so no final answer is ever produced for that query. -/
theorem C10_empty_content_error (env : QueryEnv) (q : String)
    (tc : ToolCallMsg) (tcs : List ToolCallMsg) (args : JsonVal) (tr : CallToolResult)
    (h1 : env.model1.finish_reason = "tool_calls")
    (h2 : env.model1.message.tool_calls = tc :: tcs)
    (h3 : env.jsonLoads tc.function.arguments = some args)
    (h4 : env.callTool tc.function.name args = Except.ok tr)
    (h5 : tr.content = []) :
    (process_query env q).result = Except.error QueryError.indexError ∧
    (process_query env q).requests.length = 1 := by
  simp [process_query, h1, h2, h3, h4, h5]

/-- Witness for C10 at the concrete environment `envEmptyContent`, whose
tool returns an empty content list. -/
theorem C10_empty_content_error_witness :
    envEmptyContent.callTool "query_weather" JsonVal.null = Except.ok ⟨[]⟩ ∧
    (process_query envEmptyContent "weather in Oslo").result =
      Except.error QueryError.indexError ∧
    (process_query envEmptyContent "weather in Oslo").requests.length = 1 := by
  have h := C10_empty_content_error envEmptyContent "weather in Oslo"
    ⟨"call_9", ⟨"query_weather", "city Oslo"⟩⟩ [] JsonVal.null ⟨[]⟩
    rfl rfl rfl rfl rfl
  exact ⟨rfl, h.1, h.2⟩
